import Mathlib

/-!
Verification of the `intro-express-movies-mvc-login` REST API.

The development shallowly embeds the repository's data model and request
handlers: mongoose documents become Lean structures, the document store
becomes an explicit `List` of documents threaded through each handler, and a
handler's outcome is an `Except` value that either carries the HTTP response
(status code plus JSON body) or the failure that propagates to the
centralized error-handler middleware.

Sources embedded here:
  * `models/movie.model.js`, `models/user.model.js`, the rating model
    (`src/unnamed/part_004`);
  * the movie controller (`src/unnamed/part_001`), the rating controller
    (`src/unnamed/part_002`), the user controller (`src/unnamed/part_003`);
  * `config/routes.config.js` (the route table).

The error-handler middleware, the session model and the authentication
middleware are not present under `src/`; where a definition follows the
specification instead of a source file, its doc comment says so explicitly.
-/

set_option autoImplicit false

namespace ExpressMovies

/-- A JSON value, as produced by `res.json(...)`. `null` is a possible body:
the pre-error-handling movie controller serializes `null` when `findById`
misses. -/
inductive JVal where
  | null : JVal
  | str : String → JVal
  | num : Int → JVal
  | bool : Bool → JVal
  | arr : List JVal → JVal
  | obj : List (String × JVal) → JVal

/-- The keys of a JSON object (empty for non-objects). -/
def jsonKeys : JVal → List String
  | .obj kvs => kvs.map Prod.fst
  | _ => []

/-- The `trim` transformation mongoose schema setters and JavaScript's
`String.prototype.trim` perform: leading and trailing whitespace removed. -/
def trimChars (s : String) : String :=
  ⟨((s.data.dropWhile Char.isWhitespace).reverse.dropWhile Char.isWhitespace).reverse⟩

/-- The failures that can reach the error-handler middleware: errors built
with `http-errors` (they carry an explicit status), mongoose `ValidationError`
(with the list of offending fields), mongoose `CastError`, the MongoDB
duplicate-key error (message containing `E11000`), and anything else. -/
inductive HttpError where
  | createError (status : Nat) (message : String)
  | validationError (fields : List String)
  | castError
  | duplicateKey
  | otherError
deriving Repr, DecidableEq

/-- Modelled from the spec: the centralized error-handler middleware
(`middlewares/error-handler.middleware.js`) is not under `src/`; §4.5 of the
specification and the lab instructions describe its ordered classification:
mongoose validation failure → 400, an error already carrying a status → that
status, cast error → 404, duplicate key (`E11000`) → 409, anything else →
500. -/
def errorHandler : HttpError → Nat
  | .validationError _ => 400
  | .createError status _ => status
  | .castError => 404
  | .duplicateKey => 409
  | .otherError => 500

/-- The HTTP status observed by the client: a handler that completed sends
its own status, a failing handler's error is translated by the error-handler
middleware. -/
def responseStatus {α : Type} : Except HttpError (Nat × α) → Nat
  | .ok (status, _) => status
  | .error e => errorHandler e

/-! ### Movie model (`models/movie.model.js`) -/

/-- A `Movie` document. `title`, `year`, `director` are required; `duration`,
`genre`, `rate` are optional (`genre`, an array field, defaults to `[]`).
The store identifier `_id` is modelled as a `Nat`. -/
structure Movie where
  _id : Nat
  title : String
  year : String
  director : String
  duration : Option String := none
  genre : List String := []
  rate : Option String := none
deriving Repr, DecidableEq

/-- `Movie.findById`: first document whose `_id` matches. -/
def findMovieById (store : List Movie) (id : Nat) : Option Movie :=
  store.find? (fun m => m._id == id)

/-- Default mongoose serialization of a movie. The schema configures no
`toJSON` options and declares no virtual, so the emitted object has exactly
the stored fields (optional fields are omitted when unset; the array field
`genre` is always present) — in particular there is no `ratings` key and no
`id` virtual. -/
def Movie.toJSON (m : Movie) : JVal :=
  .obj ([("_id", .num m._id),
         ("title", .str m.title),
         ("year", .str m.year),
         ("director", .str m.director)] ++
        (match m.duration with | some d => [("duration", JVal.str d)] | none => []) ++
        [("genre", .arr (m.genre.map JVal.str))] ++
        (match m.rate with | some r => [("rate", JVal.str r)] | none => []))

/-- The partial body of a `PATCH /movies/:id` request: any subset of the
schema fields. -/
structure MoviePatch where
  title : Option String := none
  year : Option String := none
  director : Option String := none
  duration : Option String := none
  genre : Option (List String) := none
  rate : Option String := none
deriving Repr, DecidableEq

/-- Apply a partial update to a movie document; the `trim` setters of the
schema run on the incoming `title` and `director`. -/
def applyMoviePatch (m : Movie) (p : MoviePatch) : Movie :=
  { m with
    title := (p.title.map trimChars).getD m.title
    year := p.year.getD m.year
    director := (p.director.map trimChars).getD m.director
    duration := match p.duration with | some d => some d | none => m.duration
    genre := p.genre.getD m.genre
    rate := match p.rate with | some r => some r | none => m.rate }

/-! ### Movie controller (`src/unnamed/part_001`) -/

/-- `GET /movies/:id` — the controller serializes whatever `findById`
returned, with no existence check: an absent id yields a 200 response whose
body is `null`. -/
def movieDetail (store : List Movie) (id : Nat) : Except HttpError (Nat × JVal) :=
  .ok (200, match findMovieById store id with
            | some m => m.toJSON
            | none => JVal.null)

/-- `PATCH /movies/:id` — `Movie.findByIdAndUpdate(id, body)` without the
`new: true` option: the store is updated in place, but the returned (and
serialized) document is the pre-update one — and `null`, with status 200,
when the id matches nothing. -/
def movieUpdate (store : List Movie) (id : Nat) (p : MoviePatch) :
    List Movie × Except HttpError (Nat × JVal) :=
  (store.map (fun m => if m._id == id then applyMoviePatch m p else m),
   .ok (200, match findMovieById store id with
             | some m => m.toJSON
             | none => JVal.null))

/-- `DELETE /movies/:id` — the handler first awaits `Movie.findById(id)` and
discards the result, then calls `Movie.delete(id)`. The mongoose model
defines no `delete` function, so that call raises a TypeError: the request
reaches the error handler as an unclassified failure (answered 500), the
store is never modified, and the `res.status(204).send()` line is
unreachable. -/
def movieDelete (store : List Movie) (id : Nat) :
    List Movie × Except HttpError (Nat × JVal) :=
  let _ := findMovieById store id
  (store, .error .otherError)

/-! ### Rating model (`src/unnamed/part_004`) -/

/-- A `Rating` document: a required reference to a movie, a required review
text with `minlength: 10` and `trim`, and a required score in `[1, 5]`. -/
structure Rating where
  _id : Nat
  movie : Nat
  text : String
  score : Int
deriving Repr, DecidableEq

/-- The body of a `POST /ratings` request: each schema field may be absent. -/
structure RatingBody where
  movie : Option Nat := none
  text : Option String := none
  score : Option Int := none
deriving Repr, DecidableEq

/-- The fields of a rating body that violate the rating schema: a missing
`movie`, a missing or (after the `trim` setter) too-short `text`, a missing
or out-of-range `score`. -/
def ratingFieldErrors (b : RatingBody) : List String :=
  (match b.movie with
    | none => ["movie"]
    | some _ => []) ++
  (match b.text with
    | none => ["text"]
    | some t => if (trimChars t).length < 10 then ["text"] else []) ++
  (match b.score with
    | none => ["score"]
    | some s => if s < 1 ∨ 5 < s then ["score"] else [])

/-- `Rating.create(body)`: validate the body against the schema and either
build the document (with the `trim` setter applied to `text`) or fail with a
mongoose `ValidationError`. -/
def ratingValidate (b : RatingBody) (newId : Nat) : Except HttpError Rating :=
  match b.movie, b.text, b.score with
  | some mid, some t, some s =>
    if 10 ≤ (trimChars t).length ∧ 1 ≤ s ∧ s ≤ 5 then
      .ok ⟨newId, mid, trimChars t, s⟩
    else
      .error (.validationError (ratingFieldErrors b))
  | _, _, _ => .error (.validationError (ratingFieldErrors b))

/-- Mongoose serialization of a rating (the schema sets `virtuals: true`, so
the `id` virtual is included). -/
def Rating.toJSON (r : Rating) : JVal :=
  .obj [("_id", .num r._id), ("movie", .num r.movie), ("text", .str r.text),
        ("score", .num r.score), ("id", .num r._id)]

/-! ### Rating controller (`src/unnamed/part_002`) -/

/-- `POST /ratings` — reject a body without a `movie` field with an explicit
400, reject a `movie` reference that matches no stored movie with an explicit
404, then let `Rating.create` validate and persist the document and answer
201 with the created rating. -/
def ratingCreate (movies : List Movie) (ratings : List Rating) (b : RatingBody)
    (newId : Nat) : List Rating × Except HttpError (Nat × Rating) :=
  match b.movie with
  | none => (ratings, .error (.createError 400 "Movie is required"))
  | some mid =>
    match findMovieById movies mid with
    | none => (ratings, .error (.createError 404 "Movie not found"))
    | some _ =>
      match ratingValidate b newId with
      | .error e => (ratings, .error e)
      | .ok r => (ratings ++ [r], .ok (201, r))

/-- A rating body that violates the rating schema's own field constraints
(stated from the spec's words "the Rating's own field validation"). -/
def ratingBodyInvalid (b : RatingBody) : Bool :=
  (match b.text with | none => true | some t => decide ((trimChars t).length < 10)) ||
  (match b.score with | none => true | some s => decide (s < 1 ∨ 5 < s))

/-- The status the amended claim about `POST /ratings` predicts: 400 without
a `movie` field, 404 when the referenced movie does not exist, 400 when the
body violates the rating schema, 201 otherwise. -/
def ratingCreateExpected (movies : List Movie) (b : RatingBody) : Nat :=
  match b.movie with
  | none => 400
  | some mid =>
    if (findMovieById movies mid).isNone then 404
    else if ratingBodyInvalid b then 400
    else 201

/-! ### User model (`models/user.model.js`) -/

/-- A calendar date as the JavaScript accessors expose it: `getFullYear`
(an integer), `getMonth` (0-based) and `getDate` (1-based). -/
structure SimpleDate where
  year : Int
  month : Nat
  day : Nat
deriving Repr, DecidableEq

/-- The custom `birthDate` validator of the user schema, verbatim: `age` is
the raw year difference, and when the birthday has not yet occurred this year
(`monthDiff < 0`, or `monthDiff = 0` and the day is still ahead) the check is
`age - 1 >= 18`, otherwise `age >= 18`. -/
def birthDateValidator (today value : SimpleDate) : Bool :=
  let age : Int := today.year - value.year
  let monthDiff : Int := (today.month : Int) - (value.month : Int)
  if monthDiff < 0 ∨ (monthDiff = 0 ∧ (today.day : Int) < (value.day : Int)) then
    decide (18 ≤ age - 1)
  else
    decide (18 ≤ age)

/-- The age a person born on `birth` has reached on `today`, month and day
taken into account (stated from the spec's words, to compare with the
schema's validator). -/
def ageOn (today birth : SimpleDate) : Int :=
  today.year - birth.year -
    (if today.month < birth.month ∨ (today.month = birth.month ∧ today.day < birth.day)
     then 1 else 0)

/-- The email pattern `^\S+@\S+\.\S+$` of the user schema: the string
matches exactly when it contains no whitespace and some occurrence of `@`
(preceded by at least one character) is followed, at least two positions
later, by some occurrence of `.` that is not the last character. -/
def matchesEmailRegex (s : String) : Bool :=
  let cs := s.toList
  cs.all (fun c => !c.isWhitespace) &&
  (List.range cs.length).any (fun i =>
    (List.range cs.length).any (fun j =>
      1 ≤ i && i + 2 ≤ j && j + 2 ≤ cs.length &&
      cs.getD i ' ' == '@' && cs.getD j ' ' == '.'))

/-- The content of the `password` column: plaintext as assigned by the
client, or the salted digest the pre-save hook substitutes. A digest records
the salt and the plaintext it was derived from; the model never exposes the
plaintext component except through `bcryptCompare`. -/
inductive StoredPassword where
  | plain (s : String)
  | hashed (salt : Nat) (preimage : String)
deriving Repr, DecidableEq

/-- The string stored in the column (the digest's opaque text when hashed);
this is what schema validators such as `minlength` see. -/
def passwordText : StoredPassword → String
  | .plain s => s
  | .hashed salt pre => "bcrypt$" ++ toString salt ++ "$" ++ pre

/-- `bcrypt.hash(plaintext, 10)`: salted, so distinct salts give distinct
digests for the same input. -/
def bcryptHash (plaintext : String) (salt : Nat) : StoredPassword :=
  .hashed salt plaintext

/-- `bcrypt.compare(plaintext, digest)`: succeeds exactly when the digest was
derived from this plaintext (comparing against a non-digest never succeeds). -/
def bcryptCompare (plaintext : String) : StoredPassword → Bool
  | .plain _ => false
  | .hashed _ pre => pre == plaintext

/-- A `User` document: required `email`, `password`, `fullName`, `birthDate`,
optional `bio`, plus the `timestamps: true` pair. -/
structure User where
  _id : Nat
  email : String
  password : StoredPassword
  fullName : String
  bio : Option String := none
  birthDate : SimpleDate
  createdAt : Nat := 0
  updatedAt : Nat := 0
deriving Repr, DecidableEq

/-- `User.findById`. -/
def findUserById (store : List User) (id : Nat) : Option User :=
  store.find? (fun u => u._id == id)

/-- The body of a user create or patch request: each schema field may be
absent. -/
structure UserBody where
  email : Option String := none
  password : Option String := none
  fullName : Option String := none
  bio : Option String := none
  birthDate : Option SimpleDate := none
deriving Repr, DecidableEq

/-- The fields of a user-creation body that violate the user schema:
`email` missing or (after `trim`) failing the pattern, `password` missing or
shorter than the `minlength` of 5, `fullName` missing, `birthDate` missing or
failing the age validator against the validation-time date. -/
def userFieldErrors (today : SimpleDate) (b : UserBody) : List String :=
  (match b.email with
    | none => ["email"]
    | some e => if matchesEmailRegex (trimChars e) then [] else ["email"]) ++
  (match b.password with
    | none => ["password"]
    | some p => if p.length < 5 then ["password"] else []) ++
  (match b.fullName with
    | none => ["fullName"]
    | some _ => []) ++
  (match b.birthDate with
    | none => ["birthDate"]
    | some d => if birthDateValidator today d then [] else ["birthDate"])

/-- Validation of an already-assembled user document, as `user.save()` runs
it on every field before the pre-save hook (`minlength` applies to the text
stored in the column). -/
def userDocErrors (today : SimpleDate) (u : User) : List String :=
  (if matchesEmailRegex u.email then [] else ["email"]) ++
  (if (passwordText u.password).length < 5 then ["password"] else []) ++
  (if birthDateValidator today u.birthDate then [] else ["birthDate"])

/-- Serialization of a date, as `res.json` would emit it. -/
def SimpleDate.toJSON (d : SimpleDate) : JVal :=
  .str (toString d.year ++ "-" ++ toString d.month ++ "-" ++ toString d.day)

/-- The object mongoose assembles for a user before the schema's `transform`
runs: every stored field plus, because `virtuals: true` is set, the `id`
virtual mirroring `_id`. -/
def userRawJSON (u : User) : List (String × JVal) :=
  [("_id", .num u._id),
   ("email", .str u.email),
   ("password", .str (passwordText u.password)),
   ("fullName", .str u.fullName)] ++
  (match u.bio with | some b => [("bio", JVal.str b)] | none => []) ++
  [("birthDate", u.birthDate.toJSON),
   ("createdAt", .num u.createdAt),
   ("updatedAt", .num u.updatedAt),
   ("id", .num u._id)]

/-- `delete ret.k`: drop a key from a serialized object. -/
def deleteKey (k : String) (kvs : List (String × JVal)) : List (String × JVal) :=
  kvs.filter (fun kv => !(kv.1 == k))

/-- The user schema's `toJSON.transform`: the assembled object with
`ret.password` and `ret._id` deleted. Every user-carrying response of the
user controller serializes through this function. -/
def userSerialize (u : User) : List (String × JVal) :=
  deleteKey "_id" (deleteKey "password" (userRawJSON u))

/-- The `pre("save")` hook: when the password field was modified on this
document, replace it by `bcrypt.hash` of its current text; otherwise leave
the document untouched. -/
def preSave (passwordModified : Bool) (salt : Nat) (u : User) : User :=
  if passwordModified then
    { u with password := bcryptHash (passwordText u.password) salt }
  else u

/-- `Object.assign(user, req.body)`: fields present in the body overwrite the
document's fields (the schema's `trim` setters run on the assigned `email`,
`fullName` and `bio`); absent fields are untouched. -/
def objectAssignUser (u : User) (b : UserBody) : User :=
  { u with
    email := (b.email.map trimChars).getD u.email
    password := (b.password.map StoredPassword.plain).getD u.password
    fullName := (b.fullName.map trimChars).getD u.fullName
    bio := match b.bio with | some s => some (trimChars s) | none => u.bio
    birthDate := b.birthDate.getD u.birthDate }

/-! ### User controller (`src/unnamed/part_003`) -/

/-- `GET /api/users` — every stored user, serialized. -/
def userList (store : List User) : Except HttpError (Nat × List (List (String × JVal))) :=
  .ok (200, store.map userSerialize)

/-- `GET /api/users/:id` — 404 when absent, otherwise the serialized user. -/
def userDetail (store : List User) (id : Nat) :
    Except HttpError (Nat × List (String × JVal)) :=
  match findUserById store id with
  | none => .error (.createError 404 "User not found")
  | some u => .ok (200, userSerialize u)

/-- `POST /api/users` — `User.create(body)`: schema validation (a
`ValidationError` lists every offending field), then the store's uniqueness
constraint on `email` (an `E11000` duplicate-key failure), then the pre-save
hook hashes the (always freshly set) password, the document is inserted and
answered with 201. -/
def userCreate (today : SimpleDate) (store : List User) (b : UserBody)
    (salt newId : Nat) : List User × Except HttpError (Nat × List (String × JVal)) :=
  match b.email, b.password, b.fullName, b.birthDate with
  | some e, some p, some f, some d =>
    if userFieldErrors today b = [] then
      if store.any (fun v => v.email == trimChars e) then
        (store, .error .duplicateKey)
      else
        let u := preSave true salt
          { _id := newId, email := trimChars e, password := .plain p, fullName := trimChars f,
            bio := b.bio.map trimChars, birthDate := d }
        (store ++ [u], .ok (201, userSerialize u))
    else (store, .error (.validationError (userFieldErrors today b)))
  | _, _, _, _ => (store, .error (.validationError (userFieldErrors today b)))

/-- `PATCH /api/users/:id` — 404 when absent; otherwise `Object.assign` the
body onto the document and `save()` it: validation first, then the pre-save
hook re-hashes exactly when the body carried a `password` field, and the
saved document is serialized in the 200 response. -/
def userUpdate (today : SimpleDate) (store : List User) (id : Nat) (b : UserBody)
    (salt : Nat) : List User × Except HttpError (Nat × List (String × JVal)) :=
  match findUserById store id with
  | none => (store, .error (.createError 404 "User not found"))
  | some u =>
    let assigned := objectAssignUser u b
    if userDocErrors today assigned = [] then
      let saved := preSave b.password.isSome salt assigned
      (store.map (fun v => if v._id == id then saved else v),
       .ok (200, userSerialize saved))
    else (store, .error (.validationError (userDocErrors today assigned)))

/-- `DELETE /api/users/:id` — `findByIdAndDelete`: 404 when absent, otherwise
remove and answer 204. -/
def userDelete (store : List User) (id : Nat) :
    List User × Except HttpError (Nat × JVal) :=
  match findUserById store id with
  | none => (store, .error (.createError 404 "User not found"))
  | some _ => (store.filter (fun u => !(u._id == id)), .ok (204, JVal.null))

/-! ### Authentication gate

The session model, the authentication middleware and the application wiring
are not present under `src/`; they are modelled from §4.2–4.3 and §6 of the
specification. The route table lists the routes of `config/routes.config.js`
together with the login / profile / logout routes §6 describes. -/

/-- A session record: an opaque identifier linked to its owning user. -/
structure Session where
  _id : Nat
  user : Nat
deriving Repr, DecidableEq

/-- The application's routes: the movie, rating and user CRUD routes of
`config/routes.config.js`, plus login, profile and logout. -/
inductive RouteKey where
  | movieList | movieDetail | movieCreate | movieUpdate | movieDelete
  | ratingList | ratingDetail | ratingCreate | ratingUpdate | ratingDelete
  | userList | userDetail | userCreate | userUpdate | userDelete
  | login | profile | logout
deriving Repr, DecidableEq

/-- Modelled from the spec: the explicit allow-list of the Auth Gate —
registration (`POST /api/users`) and login bypass the gate, every other
route requires a session. -/
def isPublicRoute : RouteKey → Bool
  | .userCreate => true
  | .login => true
  | _ => false

/-- An inbound request as the gate sees it: the matched route and the value
of the `sessionId` cookie, when one was sent. -/
structure AuthRequest where
  route : RouteKey
  cookieSessionId : Option Nat
deriving Repr, DecidableEq

/-- Outcome of the gate: rejection with a status, or permission to proceed —
carrying the resolved session on a gated route, nothing on an allow-listed
one. -/
inductive GateResult where
  | rejected (status : Nat)
  | allowed (session : Option Session)
deriving Repr, DecidableEq

/-- Modelled from the spec: the authentication middleware (§4.3). Requests
matching the allow-list pass through untouched; any other request fails with
401 when it carries no `sessionId` cookie, fails with 401 when the cookie
resolves to no stored session, and otherwise proceeds with the resolved
session attached. -/
def authGate (sessions : List Session) (req : AuthRequest) : GateResult :=
  if isPublicRoute req.route then .allowed none
  else
    match req.cookieSessionId with
    | none => .rejected 401
    | some token =>
      match sessions.find? (fun s => s._id == token) with
      | none => .rejected 401
      | some s => .allowed (some s)

/-- A bare HTTP response: status and message. -/
structure HttpResponse where
  status : Nat
  message : Option String
deriving Repr, DecidableEq

/-- The response of the gate's rejection branch. -/
def unauthorizedResponse : HttpResponse := ⟨401, some "Unauthorized"⟩

/-- A request's end-to-end flow through the gate: a rejection is terminal (the
resource handler never runs), otherwise the handler produces the response
from the attached session. -/
def handleGated (sessions : List Session) (req : AuthRequest)
    (handler : Option Session → HttpResponse) : HttpResponse :=
  match authGate sessions req with
  | .rejected status => { status := status, message := some "Unauthorized" }
  | .allowed s => handler s

/-! ### Helper lemmas -/

/-- Replacing, in a list, every element whose key matches `i` leaves the
keyed lookup pointing at the replacement of the previously found element,
provided the replacement's key still matches. -/
theorem find?_map_update {α : Type} (key : α → Nat) (f : α → α) (l : List α)
    (i : Nat) (a : α)
    (hfind : l.find? (fun x => key x == i) = some a)
    (hf : key (f a) = i) :
    (l.map (fun x => if key x == i then f x else x)).find? (fun x => key x == i)
      = some (f a) := by
  induction l with
  | nil => simp at hfind
  | cons hd tl ih =>
    rw [List.find?_cons] at hfind
    rw [List.map_cons, List.find?_cons]
    by_cases h : key hd = i
    · have hb : (key hd == i) = true := by simpa using h
      rw [hb] at hfind
      obtain rfl : hd = a := by injection hfind
      have hb2 : (key (f hd) == i) = true := by simpa using hf
      simp only [hb, if_true, hb2]
    · have hb : (key hd == i) = false := by simpa using h
      rw [hb] at hfind
      simp only [hb, Bool.false_eq_true, if_false]
      exact ih hfind

/-- `preSave` never changes the document identifier. -/
theorem preSave_id (m : Bool) (salt : Nat) (u : User) : (preSave m salt u)._id = u._id := by
  unfold preSave
  split <;> rfl

/-- `applyMoviePatch` never changes the document identifier. -/
theorem applyMoviePatch_id (m : Movie) (p : MoviePatch) : (applyMoviePatch m p)._id = m._id :=
  rfl

/-- The schema validator agrees with the month-and-day-aware age: it accepts
exactly the birth dates whose owner has reached 18. -/
theorem birthDateValidator_iff (today d : SimpleDate) :
    birthDateValidator today d = true ↔ 18 ≤ ageOn today d := by
  simp only [birthDateValidator, ageOn]
  split_ifs with h1 h2 h2 <;> simp only [decide_eq_true_eq] <;> omega

/-- A sample movie document, used as concrete input by several checks. -/
def sampleMovie : Movie :=
  { _id := 1, title := "The Godfather", year := "1972", director := "Francis Ford Coppola" }

/-! ### Settled claims -/

/-- C2: the claim — a well-formed movie identifier matching no stored movie
makes `GET /movies/:id` and `PATCH /movies/:id` fail with 404 — does not hold
of the movie controller, which performs no existence check: on a store
holding only the movie with identifier 1, both operations on identifier 9
answer 200 with a `null` body (the repository's own tests and lab
instructions require the 404, so this is a bug of the code). -/
theorem movieAbsent_detail_update_answer_null :
    movieDetail [sampleMovie] 9 = .ok (200, JVal.null)
    ∧ (movieUpdate [sampleMovie] 9 { rate := some "5.0" }).2 = .ok (200, JVal.null)
    ∧ responseStatus (movieDetail [sampleMovie] 9) = 200 :=
  ⟨rfl, rfl, rfl⟩

/-- C3: the claim — an existing id is removed from the store with a 204
answer, an absent id is a 404 error rather than a no-op success — does not
hold of the movie controller on either branch: `Movie.delete` is not a
function of the mongoose model, so every `DELETE /movies/:id` request,
whether the id exists (1) or not (9) in a store holding only the movie with
identifier 1, fails with an unclassified TypeError, is answered 500 by the
error handler, and removes nothing. The handler also never checks the
`findById` result, so no path can produce the claimed 404. The repository's
own tests require the 204 and 404 answers, so this is a bug of the code. -/
theorem movieDelete_always_500_removes_nothing :
    movieDelete [sampleMovie] 1 = ([sampleMovie], .error .otherError)
    ∧ movieDelete [sampleMovie] 9 = ([sampleMovie], .error .otherError)
    ∧ responseStatus (movieDelete [sampleMovie] 1).2 = 500
    ∧ responseStatus (movieDelete [sampleMovie] 9).2 = 500 :=
  ⟨rfl, rfl, rfl, rfl⟩

/-- C5: the claim — a movie with no associated ratings exposes an empty
`ratings` array in its detail response — does not hold of the code under
`src/`: the movie schema declares no `ratings` virtual and the detail handler
populates nothing, so the serialized body of a movie with no ratings carries
no `ratings` key at all (the repository's virtual-populate tests require the
key, so this is a missing feature of the code). -/
theorem movieDetail_body_has_no_ratings_key :
    movieDetail [sampleMovie] 1 = .ok (200, sampleMovie.toJSON)
    ∧ jsonKeys sampleMovie.toJSON = ["_id", "title", "year", "director", "genre"]
    ∧ "ratings" ∉ jsonKeys sampleMovie.toJSON := by
  refine ⟨rfl, rfl, by decide⟩

/-- C10: `PATCH /movies/:id` on an existing movie persists the update to the
store but, because `findByIdAndUpdate` is called without `new: true`,
serializes the pre-update document: the 200 response shows the old field
values while the store holds the patched document. -/
theorem movieUpdate_persists_returns_stale (store : List Movie) (id : Nat)
    (p : MoviePatch) (m : Movie) (hfind : findMovieById store id = some m) :
    (movieUpdate store id p).2 = .ok (200, m.toJSON)
    ∧ findMovieById (movieUpdate store id p).1 id = some (applyMoviePatch m p)
    ∧ ∀ r, p.rate = some r → (applyMoviePatch m p).rate = some r := by
  have hid : m._id = id := by
    have := List.find?_some hfind
    simpa using this
  refine ⟨?_, ?_, ?_⟩
  · simp [movieUpdate, hfind]
  · simpa [movieUpdate, findMovieById] using
      find?_map_update Movie._id (fun x => applyMoviePatch x p) store id m hfind
        (by rw [applyMoviePatch_id]; exact hid)
  · intro r hr
    simp [applyMoviePatch, hr]

/-- C10 witness: patching the sample movie's `rate` to `"9.9"` answers 200
with the old document (whose `rate` is unset) while the stored document now
carries `rate = "9.9"`. -/
theorem movieUpdate_persists_returns_stale_witness :
    (movieUpdate [sampleMovie] 1 { rate := some "9.9" }).2 = .ok (200, sampleMovie.toJSON)
    ∧ findMovieById (movieUpdate [sampleMovie] 1 { rate := some "9.9" }).1 1
        = some (applyMoviePatch sampleMovie { rate := some "9.9" })
    ∧ (applyMoviePatch sampleMovie { rate := some "9.9" }).rate = some "9.9"
    ∧ sampleMovie.rate = none := by
  have h := movieUpdate_persists_returns_stale [sampleMovie] 1
    { rate := some "9.9" } sampleMovie rfl
  exact ⟨h.1, h.2.1, h.2.2 "9.9" rfl, rfl⟩

/-- C4 counterexample: a `POST /ratings` body whose `movie` field references
an existing movie but whose `text` field is missing is answered 400 (the
rating schema's own validation) and persists nothing — not, as the claim's
final clause states, persisted and answered 201. -/
theorem ratingCreate_existing_movie_invalid_body :
    responseStatus (ratingCreate [sampleMovie] [] { movie := some 1, score := some 3 } 5).2 = 400
    ∧ (ratingCreate [sampleMovie] [] { movie := some 1, score := some 3 } 5).1 = []
    ∧ (400 : Nat) ≠ 201 := by
  refine ⟨rfl, rfl, by decide⟩

/-- C4 amended: a `POST /ratings` body without a `movie` field is answered
400; one whose `movie` references no stored movie is answered 404; otherwise,
when the body satisfies the rating schema's own field validation (a `text` of
at least 10 characters after trimming and a `score` between 1 and 5) the
rating is persisted and answered 201, and when it violates that validation
the response is a 400 validation error with nothing persisted. -/
theorem ratingCreate_status_and_persistence (movies : List Movie)
    (ratings : List Rating) (b : RatingBody) (newId : Nat) :
    responseStatus (ratingCreate movies ratings b newId).2 = ratingCreateExpected movies b
    ∧ (∀ r : Rating, (ratingCreate movies ratings b newId).2 = .ok (201, r) →
        (ratingCreate movies ratings b newId).1 = ratings ++ [r])
    ∧ (responseStatus (ratingCreate movies ratings b newId).2 ≠ 201 →
        (ratingCreate movies ratings b newId).1 = ratings) := by
  obtain ⟨bm, bt, bs⟩ := b
  cases bm with
  | none =>
    exact ⟨rfl, fun r h => by simp [ratingCreate] at h, fun _ => rfl⟩
  | some mid =>
    cases hfm : findMovieById movies mid with
    | none =>
      refine ⟨?_, fun r h => ?_, fun _ => ?_⟩
      · simp [ratingCreate, ratingCreateExpected, hfm, responseStatus, errorHandler]
      · simp [ratingCreate, hfm] at h
      · simp [ratingCreate, hfm]
    | some mv =>
      have hsome : (findMovieById movies mid).isNone = false := by simp [hfm]
      cases bt with
      | none =>
        refine ⟨?_, fun r h => ?_, fun _ => ?_⟩
        · simp [ratingCreate, ratingValidate, ratingCreateExpected, ratingBodyInvalid,
            hfm, hsome, responseStatus, errorHandler]
        · simp [ratingCreate, ratingValidate, hfm] at h
        · simp [ratingCreate, ratingValidate, hfm]
      | some t =>
        cases bs with
        | none =>
          refine ⟨?_, fun r h => ?_, fun _ => ?_⟩
          · simp [ratingCreate, ratingValidate, ratingCreateExpected, ratingBodyInvalid,
              hfm, hsome, responseStatus, errorHandler]
          · simp [ratingCreate, ratingValidate, hfm] at h
          · simp [ratingCreate, ratingValidate, hfm]
        | some s =>
          by_cases hv : 10 ≤ (trimChars t).length ∧ 1 ≤ s ∧ s ≤ 5
          · have hinv : ratingBodyInvalid ⟨some mid, some t, some s⟩ = false := by
              simp only [ratingBodyInvalid]
              simp only [Bool.or_eq_false_iff, decide_eq_false_iff_not]
              constructor
              · omega
              · push_neg
                omega
            refine ⟨?_, fun r h => ?_, fun hne => ?_⟩
            · simp [ratingCreate, ratingValidate, ratingCreateExpected, hfm, hsome,
                hinv, hv, responseStatus]
            · simp only [ratingCreate, ratingValidate, hfm, if_pos hv] at h ⊢
              obtain rfl : (⟨newId, mid, trimChars t, s⟩ : Rating) = r := by
                injection h with h2
                injection h2 with _ h3
              rfl
            · exfalso
              exact hne (by simp [ratingCreate, ratingValidate, hfm, hv, responseStatus])
          · have hinv : ratingBodyInvalid ⟨some mid, some t, some s⟩ = true := by
              simp only [ratingBodyInvalid]
              simp only [Bool.or_eq_true_iff, decide_eq_true_eq]
              omega
            refine ⟨?_, fun r h => ?_, fun _ => ?_⟩
            · simp [ratingCreate, ratingValidate, ratingCreateExpected, hfm, hsome,
                hinv, hv, responseStatus, errorHandler]
            · simp [ratingCreate, ratingValidate, hfm, hv] at h
            · simp [ratingCreate, ratingValidate, hfm, hv]

/-- C4 witness for the amended claim: a valid body referencing the sample
movie is persisted and answered 201, and the predicted status agrees. -/
theorem ratingCreate_status_and_persistence_witness :
    responseStatus (ratingCreate [sampleMovie] []
        { movie := some 1, text := some "An absolute masterpiece", score := some 5 } 7).2
      = ratingCreateExpected [sampleMovie]
          { movie := some 1, text := some "An absolute masterpiece", score := some 5 }
    ∧ (ratingCreate [sampleMovie] []
        { movie := some 1, text := some "An absolute masterpiece", score := some 5 } 7).1
      = [] ++ [⟨7, 1, "An absolute masterpiece", 5⟩] := by
  have h := ratingCreate_status_and_persistence [sampleMovie] []
    { movie := some 1, text := some "An absolute masterpiece", score := some 5 } 7
  exact ⟨h.1, h.2.1 ⟨7, 1, "An absolute masterpiece", 5⟩ rfl⟩

/-- A user body whose birth-date component fails validation makes the whole
error list non-empty. -/
theorem userFieldErrors_ne_nil_of_minor (today d : SimpleDate) (b : UserBody)
    (hbd : b.birthDate = some d) (hval : birthDateValidator today d = false) :
    userFieldErrors today b ≠ [] := by
  simp [userFieldErrors, hbd, hval, List.append_eq_nil]

/-- A user create attempt whose field validation fails is answered 400 and
persists nothing, whatever the other fields hold. -/
theorem userCreate_invalid_is_400 (today : SimpleDate) (b : UserBody)
    (store : List User) (salt newId : Nat)
    (hne : userFieldErrors today b ≠ []) :
    responseStatus (userCreate today store b salt newId).2 = 400
    ∧ (userCreate today store b salt newId).1 = store := by
  rcases he : b.email with _ | e <;> rcases hp : b.password with _ | p <;>
    rcases hf : b.fullName with _ | f <;> rcases hbd : b.birthDate with _ | d <;>
    simp [userCreate, he, hp, hf, hbd, hne, responseStatus, errorHandler]

/-- C6: registration accepts a birth date exactly when the age reached at
validation time — month and day taken into account — is at least 18: the
schema validator agrees with the month-and-day-aware age, a birth date whose
owner is under 18 makes `POST /api/users` fail with a 400 validation error
and persist nothing, and a 201 success implies the age was at least 18. -/
theorem userCreate_age_validation (today d : SimpleDate) (b : UserBody)
    (store : List User) (salt newId : Nat) (hbd : b.birthDate = some d) :
    (birthDateValidator today d = true ↔ 18 ≤ ageOn today d)
    ∧ (ageOn today d < 18 →
        responseStatus (userCreate today store b salt newId).2 = 400
        ∧ (userCreate today store b salt newId).1 = store)
    ∧ (responseStatus (userCreate today store b salt newId).2 = 201 →
        18 ≤ ageOn today d) := by
  refine ⟨birthDateValidator_iff today d, ?_, ?_⟩
  · intro hage
    have hval : birthDateValidator today d = false := by
      by_contra hc
      have ht : birthDateValidator today d = true := by simpa using hc
      exact absurd ((birthDateValidator_iff today d).mp ht) (by omega)
    exact userCreate_invalid_is_400 today b store salt newId
      (userFieldErrors_ne_nil_of_minor today d b hbd hval)
  · intro h201
    by_cases hval : birthDateValidator today d = true
    · exact (birthDateValidator_iff today d).mp hval
    · exfalso
      have hval2 : birthDateValidator today d = false := by simpa using hval
      have h400 := userCreate_invalid_is_400 today b store salt newId
        (userFieldErrors_ne_nil_of_minor today d b hbd hval2)
      omega

/-- C6 witness: on 2026-10-11 a registration with birth date 2015-01-01 (age
11) and otherwise valid fields is answered 400 and persists nothing, and the
validator-age equivalence holds at these dates. -/
theorem userCreate_age_validation_witness :
    (birthDateValidator ⟨2026, 9, 11⟩ ⟨2015, 0, 1⟩ = true
      ↔ 18 ≤ ageOn ⟨2026, 9, 11⟩ ⟨2015, 0, 1⟩)
    ∧ responseStatus (userCreate ⟨2026, 9, 11⟩ []
        { email := some "minor@test.com", password := some "secret123",
          fullName := some "Test User", birthDate := some ⟨2015, 0, 1⟩ } 42 1).2 = 400
    ∧ (userCreate ⟨2026, 9, 11⟩ []
        { email := some "minor@test.com", password := some "secret123",
          fullName := some "Test User", birthDate := some ⟨2015, 0, 1⟩ } 42 1).1 = [] := by
  have h := userCreate_age_validation ⟨2026, 9, 11⟩ ⟨2015, 0, 1⟩
    { email := some "minor@test.com", password := some "secret123",
      fullName := some "Test User", birthDate := some ⟨2015, 0, 1⟩ } [] 42 1 rfl
  exact ⟨h.1, (h.2.1 (by decide)).1, (h.2.1 (by decide)).2⟩

/-- C9: the user schema's `minlength: 5` on `password` — a constraint the
spec never states — rejects every password shorter than 5 characters:
`POST /api/users` with such a password is answered 400 and persists nothing,
whatever the other fields hold. -/
theorem userCreate_short_password (today : SimpleDate) (b : UserBody)
    (store : List User) (salt newId : Nat) (p : String)
    (hp : b.password = some p) (hlen : p.length < 5) :
    responseStatus (userCreate today store b salt newId).2 = 400
    ∧ (userCreate today store b salt newId).1 = store := by
  have hne : userFieldErrors today b ≠ [] := by
    simp [userFieldErrors, hp, hlen, List.append_eq_nil]
  exact userCreate_invalid_is_400 today b store salt newId hne

/-- C9 witness: a registration with the 4-character password `"1234"` and
otherwise valid fields is answered 400 and persists nothing. -/
theorem userCreate_short_password_witness :
    responseStatus (userCreate ⟨2026, 9, 11⟩ []
        { email := some "short@test.com", password := some "1234",
          fullName := some "Test User", birthDate := some ⟨1990, 0, 15⟩ } 42 1).2 = 400
    ∧ (userCreate ⟨2026, 9, 11⟩ []
        { email := some "short@test.com", password := some "1234",
          fullName := some "Test User", birthDate := some ⟨1990, 0, 15⟩ } 42 1).1 = [] :=
  userCreate_short_password ⟨2026, 9, 11⟩
    { email := some "short@test.com", password := some "1234",
      fullName := some "Test User", birthDate := some ⟨1990, 0, 15⟩ } [] 42 1
    "1234" rfl (by decide)

/-- C7: every serialized user — the shape every user-carrying response of
the controller emits — hides the password digest and the raw `_id` while
exposing the opaque `id` virtual, and the list endpoint serializes every
stored user through this very transformation. -/
theorem userSerialize_hides_digest_and_raw_id (u : User) :
    "password" ∉ (userSerialize u).map Prod.fst
    ∧ "_id" ∉ (userSerialize u).map Prod.fst
    ∧ "id" ∈ (userSerialize u).map Prod.fst
    ∧ (∀ store : List User, userList store = .ok (200, store.map userSerialize)) := by
  refine ⟨?_, ?_, ?_, fun store => rfl⟩ <;>
    cases hb : u.bio <;>
      simp [userSerialize, userRawJSON, deleteKey, hb]

/-- The document a user `PATCH` saves: the body assigned onto the stored
document, then the pre-save hook (which re-hashes exactly when the body
carried a password). -/
def savedUser (u : User) (b : UserBody) (salt : Nat) : User :=
  preSave b.password.isSome salt (objectAssignUser u b)

/-- C8: updating an existing user re-derives the digest from the incoming
plaintext exactly when the body carries a `password` field — the persisted
digest then verifies against the new plaintext — while a body without a
`password` field leaves the digest untouched (so whatever plaintext verified
before still verifies), and every field absent from the body keeps its
previous value; the saved document is both persisted and serialized in the
200 response. -/
theorem userUpdate_rehash_and_frame (today : SimpleDate) (store : List User)
    (id : Nat) (b : UserBody) (salt : Nat) (u : User)
    (hfind : findUserById store id = some u)
    (hvalid : userDocErrors today (objectAssignUser u b) = []) :
    (userUpdate today store id b salt).2 = .ok (200, userSerialize (savedUser u b salt))
    ∧ (∀ p, b.password = some p →
        (savedUser u b salt).password = StoredPassword.hashed salt p
        ∧ bcryptCompare p (savedUser u b salt).password = true)
    ∧ (b.password = none →
        (savedUser u b salt).password = u.password
        ∧ ∀ w, bcryptCompare w (savedUser u b salt).password = bcryptCompare w u.password)
    ∧ (b.bio = none → (savedUser u b salt).bio = u.bio)
    ∧ (b.email = none → (savedUser u b salt).email = u.email)
    ∧ (b.fullName = none → (savedUser u b salt).fullName = u.fullName)
    ∧ (b.birthDate = none → (savedUser u b salt).birthDate = u.birthDate)
    ∧ findUserById (userUpdate today store id b salt).1 id = some (savedUser u b salt) := by
  have hid : u._id = id := by simpa using List.find?_some hfind
  have hsid : (savedUser u b salt)._id = id := by
    rw [savedUser, preSave_id]
    simpa [objectAssignUser] using hid
  refine ⟨?_, ?_, ?_, ?_, ?_, ?_, ?_, ?_⟩
  · simp [userUpdate, hfind, hvalid, savedUser]
  · intro p hp
    simp [savedUser, preSave, objectAssignUser, hp, bcryptHash, passwordText, bcryptCompare]
  · intro hp
    simp [savedUser, preSave, objectAssignUser, hp]
  · intro hbio
    cases hpw : b.password <;>
      simp [savedUser, preSave, objectAssignUser, hbio, hpw]
  · intro hemail
    cases hpw : b.password <;>
      simp [savedUser, preSave, objectAssignUser, hemail, hpw]
  · intro hfn
    cases hpw : b.password <;>
      simp [savedUser, preSave, objectAssignUser, hfn, hpw]
  · intro hbd
    cases hpw : b.password <;>
      simp [savedUser, preSave, objectAssignUser, hbd, hpw]
  · have hmain := find?_map_update User._id (fun _ => savedUser u b salt) store id u hfind hsid
    have hstore : (userUpdate today store id b salt).1
        = store.map (fun v => if v._id == id then savedUser u b salt else v) := by
      simp [userUpdate, hfind, hvalid, savedUser]
    rw [hstore]
    simp only [findUserById]
    exact hmain

/-- A sample stored user whose digest was derived from `"secret123"`. -/
def sampleUser : User :=
  { _id := 1, email := "test@example.com", password := .hashed 42 "secret123",
    fullName := "Test User", birthDate := ⟨1990, 0, 15⟩ }

/-- C8 witness: patching the sample user with a new password persists a
digest of the new plaintext that verifies against it, and patching only the
bio leaves the digest (still verifying the old plaintext) untouched. -/
theorem userUpdate_rehash_and_frame_witness :
    ((savedUser sampleUser { password := some "newpass123" } 7).password
        = StoredPassword.hashed 7 "newpass123"
      ∧ bcryptCompare "newpass123"
          (savedUser sampleUser { password := some "newpass123" } 7).password = true)
    ∧ ((savedUser sampleUser { bio := some "Hello world" } 7).password
        = sampleUser.password
      ∧ bcryptCompare "secret123"
          (savedUser sampleUser { bio := some "Hello world" } 7).password = true)
    ∧ findUserById
        (userUpdate ⟨2026, 9, 11⟩ [sampleUser] 1 { password := some "newpass123" } 7).1 1
        = some (savedUser sampleUser { password := some "newpass123" } 7) := by
  have h1 := userUpdate_rehash_and_frame ⟨2026, 9, 11⟩ [sampleUser] 1
    { password := some "newpass123" } 7 sampleUser rfl (by decide)
  have h2 := userUpdate_rehash_and_frame ⟨2026, 9, 11⟩ [sampleUser] 1
    { bio := some "Hello world" } 7 sampleUser rfl (by decide)
  refine ⟨h1.2.1 "newpass123" rfl, ⟨(h2.2.2.1 rfl).1, ?_⟩, h1.2.2.2.2.2.2.2⟩
  rw [(h2.2.2.1 rfl).2 "secret123"]
  rfl

/-- C1: on every protected route — every movie, rating and user CRUD route,
everything except registration and login — a request without a `sessionId`
cookie, or whose cookie resolves to no stored session, is answered 401 and
no resource handler runs; a request whose cookie resolves to a stored
session proceeds to the handler with that session attached. The allow-list
is exactly registration and login. -/
theorem authGate_contract (sessions : List Session) (req : AuthRequest)
    (hprot : isPublicRoute req.route = false) :
    (req.cookieSessionId = none →
      ∀ handler, handleGated sessions req handler = unauthorizedResponse)
    ∧ (∀ token, req.cookieSessionId = some token →
        sessions.find? (fun s => s._id == token) = none →
        ∀ handler, handleGated sessions req handler = unauthorizedResponse)
    ∧ (∀ token s, req.cookieSessionId = some token →
        sessions.find? (fun s2 => s2._id == token) = some s →
        ∀ handler, handleGated sessions req handler = handler (some s))
    ∧ (∀ r : RouteKey, isPublicRoute r = false ↔ (r ≠ .userCreate ∧ r ≠ .login)) := by
  refine ⟨?_, ?_, ?_, ?_⟩
  · intro hc handler
    simp [handleGated, authGate, hprot, hc, unauthorizedResponse]
  · intro token hc hfind handler
    simp [handleGated, authGate, hprot, hc, hfind, unauthorizedResponse]
  · intro token s hc hfind handler
    simp [handleGated, authGate, hprot, hc, hfind]
  · intro r
    cases r <;> simp [isPublicRoute]

/-- C1 witness: with one stored session of identifier 5, a cookieless
request to the movie list is answered 401, a request with a cookie naming
the nonexistent session 6 is answered 401, and a request with a cookie
naming session 5 reaches the handler. -/
theorem authGate_contract_witness :
    handleGated [⟨5, 9⟩] ⟨.movieList, none⟩ (fun _ => ⟨200, none⟩) = unauthorizedResponse
    ∧ handleGated [⟨5, 9⟩] ⟨.movieList, some 6⟩ (fun _ => ⟨200, none⟩) = unauthorizedResponse
    ∧ handleGated [⟨5, 9⟩] ⟨.movieList, some 5⟩ (fun _ => ⟨200, none⟩) = ⟨200, none⟩ := by
  have h := authGate_contract [⟨5, 9⟩] ⟨.movieList, none⟩ rfl
  have h6 := authGate_contract [⟨5, 9⟩] ⟨.movieList, some 6⟩ rfl
  have h5 := authGate_contract [⟨5, 9⟩] ⟨.movieList, some 5⟩ rfl
  exact ⟨h.1 rfl _, h6.2.1 6 rfl rfl _, h5.2.2.1 5 ⟨5, 9⟩ rfl rfl _⟩

end ExpressMovies
